import Mathlib

/-!
Verification of the live_test signaling server (src/unnamed/part_001, the
richest variant, which subsumes the two variants in src/server.js).

The server is a single-threaded event loop: every inbound WebSocket
message, connection open, connection close and timer callback runs to
completion before the next event is processed.  We embed the four global
registries (clients, persistentIdToClientId, rooms, persistentIdToRoomId)
as association lists, JS `Set` objects as insertion-ordered duplicate-free
lists, and every handler as a pure function
`ServerState -> ... -> ServerState × List Sent`, where the `List Sent`
records the `ws.send` calls the handler performed, in order.

JS-specific conventions mirrored here:
* a possibly-`undefined` string value is `Option String` (`none` =
  `undefined`/`null`); identity keys may genuinely be `undefined` in the
  source (for example an unregistered client creating a room), so the
  identity-keyed maps use `Option String` keys;
* `x || null` on a string is `orNull` (the empty string is falsy);
* `setTimeout` hands back a timer id; the runtime keeps a set of scheduled,
  not-yet-cancelled, not-yet-fired timers (`liveTimers`); `clearTimeout`
  removes an entry; a timer callback can only run while its entry is live.
  The reconnect callback closes over the room object, so after
  `rooms.delete` the object is still reachable from a leaked timer; deleted
  rooms are therefore kept in `removedRooms` so a late fire reads the same
  object state the source would;
* `uuidv4()` for room ids is modelled by a fresh-name counter.
-/

namespace LiveTest

/-- JS truthiness of a possibly-undefined string: `undefined` and `""` are falsy. -/
def truthy : Option String → Bool
  | none => false
  | some s => s ≠ ""

/-- JS `x || null` for a possibly-undefined string value. -/
def orNull (x : Option String) : Option String :=
  if truthy x then x else none

/-- `Map.get`. -/
def mapGet {α β : Type} [DecidableEq α] (m : List (α × β)) (k : α) : Option β :=
  match m with
  | [] => none
  | (k2, v) :: rest => if k2 = k then some v else mapGet rest k

/-- `Map.set` (overwrites an existing binding, appends otherwise). -/
def mapSet {α β : Type} [DecidableEq α] (m : List (α × β)) (k : α) (v : β) :
    List (α × β) :=
  match m with
  | [] => [(k, v)]
  | (k2, v2) :: rest => if k2 = k then (k, v) :: rest else (k2, v2) :: mapSet rest k v

/-- `Map.delete`. -/
def mapDel {α β : Type} [DecidableEq α] (m : List (α × β)) (k : α) : List (α × β) :=
  match m with
  | [] => []
  | (k2, v2) :: rest => if k2 = k then rest else (k2, v2) :: mapDel rest k

/-- `Set.add` (JS sets keep insertion order and ignore re-insertion). -/
def setAdd {α : Type} [DecidableEq α] (s : List α) (x : α) : List α :=
  if x ∈ s then s else s ++ [x]

/-- `Set.delete`. -/
def setDel {α : Type} [DecidableEq α] (s : List α) (x : α) : List α :=
  s.filter (fun y => y ≠ x)

/-- One ICE server entry of config.js. -/
structure IceServer where
  urls : String
  username : Option String
  credential : Option String
deriving DecidableEq, Repr

/-- The `iceServers` list exported by src/config.js. -/
def configIceServers : List IceServer :=
  [ { urls := "turn:free.expressturn.com:3478",
      username := some "000000002083647736",
      credential := some "4rrveXxVAGyhGl7lorJasxF1aZ4=" },
    { urls := "stun:stun.l.google.com:19302",
      username := none, credential := none } ]

/-- The role a connection acquires (`clientInfo.role`). -/
inductive Role
  | broadcaster
  | viewer
deriving DecidableEq, Repr

/-- One entry of the `clients` map: `{ id, ws, persistentId, username, role }`.
The socket handle is represented by the transient id itself (sends are
recorded as `(clientId, message)` pairs). -/
structure Client where
  id : String
  persistentId : Option String := none
  username : Option String := none
  role : Option Role := none
deriving DecidableEq, Repr

/-- Room lifecycle status (the source also names an unused `inactive`). -/
inductive RoomStatus
  | active
  | pendingRejoin
deriving DecidableEq, Repr

/-- One entry of the `rooms` map.  `reconnectTimeout` holds the id of the
scheduled reconnect timer, as `setTimeout` returns it. -/
structure Room where
  id : String
  name : Option String
  broadcasterId : Option String
  viewers : List (Option String)
  mutedViewers : List (Option String)
  isAnchorMuted : Bool
  status : RoomStatus
  reconnectTimeout : Option Nat
  password : Option String
deriving DecidableEq, Repr

/-- The three relayed WebRTC signaling message kinds. -/
inductive RelayKind
  | offer
  | answer
  | candidate
deriving DecidableEq, Repr

/-- Payload of an offer/answer/candidate message: the routing target plus
an opaque negotiation body (field-name/value pairs). -/
structure P2PPayload where
  targetId : Option String
  body : List (String × String)
deriving DecidableEq, Repr

/-- One row of the list-rooms reply. -/
structure RoomListEntry where
  roomId : String
  roomName : Option String
  broadcasterName : Option String
  viewerCount : Nat
  isPasswordProtected : Bool
deriving DecidableEq, Repr

/-- Every message the server sends, in structured form. -/
inductive OutMsg
  | registered (userId : String) (iceServers : List IceServer)
  | roomCreated (roomId : String) (roomName : String)
  | rejoinRoomFailed (message : String)
  | roomRejoined (roomId : String) (roomName : Option String)
  | broadcasterRejoined (roomId : String) (broadcasterId : String)
  | roomList (entries : List RoomListEntry)
  | errorReply (message : String) (code : Option String)
  | joinedRoom (roomId : String)
  | newViewer (viewerId : Option String) (username : Option String) (isMuted : Bool)
  | viewerMutedStatus (viewerId : Option String) (isMuted : Bool)
  | anchorStatus (muteType : Bool) (anchorId : Option String) (isMuted : Bool)
  | viewerLeft (viewerId : Option String)
  | broadcasterDisconnected (roomId : String)
  | roomClosed (roomId : String)
  | kicked (reason : String)
  | relayed (kind : RelayKind) (targetId : Option String)
      (body : List (String × String)) (senderId : Option String)
deriving DecidableEq, Repr

/-- A performed `ws.send`: target connection id and the message. -/
abbrev Sent := String × OutMsg

/-- The four global registries plus the timer bookkeeping described in the
module header. -/
structure ServerState where
  clients : List (String × Client)
  persistentIdToClientId : List (Option String × String)
  rooms : List (String × Room)
  persistentIdToRoomId : List (Option String × String)
  removedRooms : List (String × Room)
  liveTimers : List (Nat × String)
  nextTimerId : Nat
  nextUuid : Nat
deriving DecidableEq, Repr

/-- `clients.get(persistentIdToClientId.get(pid))`: resolve an identity to
its current client record (both lookups tolerate `undefined`). -/
def resolvePid (s : ServerState) (pid : Option String) : Option Client :=
  match mapGet s.persistentIdToClientId pid with
  | none => none
  | some cid => mapGet s.clients cid

/-- Deterministic stand-in for `uuidv4()` room-id generation. -/
def freshUuid (n : Nat) : String :=
  "room-" ++ toString n

/-- The empty registries at process start. -/
def initState : ServerState :=
  { clients := [], persistentIdToClientId := [], rooms := [],
    persistentIdToRoomId := [], removedRooms := [], liveTimers := [],
    nextTimerId := 0, nextUuid := 0 }

/-- `handleRegistration` (part_001 lines 119-138): validate the two payload
fields (JS truthiness), record identity and username on the client record,
bind the identity to this connection, acknowledge with the ICE server list. -/
def handleRegistration (s : ServerState) (clientId : String)
    (persistentId username : Option String) : ServerState × List Sent :=
  match persistentId, username with
  | some p, some u =>
    if p = "" ∨ u = "" then (s, []) else
    match mapGet s.clients clientId with
    | none => (s, [])
    | some info =>
      let info2 := { info with persistentId := some p, username := some u }
      ({ s with clients := mapSet s.clients clientId info2,
                persistentIdToClientId :=
                  mapSet s.persistentIdToClientId (some p) clientId },
       [(clientId, OutMsg.registered p configIceServers)])
  | _, _ => (s, [])

/-- `handleCreateRoom` (part_001 lines 145-171): require a truthy room name,
allocate a fresh room id, create an active room with empty viewer and muted
sets and `password || null`, index the creator as its broadcaster, set the
creator role, reply room-created. -/
def handleCreateRoom (s : ServerState) (clientId : String)
    (roomName password : Option String) : ServerState × List Sent :=
  match mapGet s.clients clientId with
  | none => (s, [])
  | some info =>
    match roomName with
    | none => (s, [])
    | some rn =>
      if rn = "" then (s, []) else
      let roomId := freshUuid s.nextUuid
      let newRoom : Room :=
        { id := roomId, name := some rn, broadcasterId := info.persistentId,
          viewers := [], mutedViewers := [], isAnchorMuted := false,
          status := RoomStatus.active, reconnectTimeout := none,
          password := orNull password }
      ({ s with rooms := mapSet s.rooms roomId newRoom,
                persistentIdToRoomId :=
                  mapSet s.persistentIdToRoomId info.persistentId roomId,
                clients := mapSet s.clients clientId
                  { info with role := some Role.broadcaster },
                nextUuid := s.nextUuid + 1 },
       [(clientId, OutMsg.roomCreated roomId rn)])

/-- `handleRejoinRoom` (part_001 lines 178-225): require a registered
identity; fail with rejoin-room-failed when the room is missing or owned by
a different identity; otherwise re-bind the identity to this connection,
set the broadcaster role, update the name if it differs, unconditionally
set `password || null`, cancel a pending reconnect timer, reactivate the
room, reply room-rejoined and notify every other resolvable viewer. -/
def handleRejoinRoom (s : ServerState) (clientId : String)
    (roomId roomName password : Option String) : ServerState × List Sent :=
  match mapGet s.clients clientId with
  | none => (s, [])
  | some info =>
    match info.persistentId with
    | none => (s, [])
    | some pid =>
      if pid = "" then (s, []) else
      match roomId with
      | none =>
        (s, [(clientId, OutMsg.rejoinRoomFailed "房间不存在或主播身份不匹配")])
      | some rid =>
        match mapGet s.rooms rid with
        | none =>
          (s, [(clientId, OutMsg.rejoinRoomFailed "房间不存在或主播身份不匹配")])
        | some room =>
          if room.broadcasterId ≠ some pid then
            (s, [(clientId, OutMsg.rejoinRoomFailed "房间不存在或主播身份不匹配")])
          else
            let s1 := { s with
              persistentIdToClientId :=
                mapSet s.persistentIdToClientId (some pid) clientId,
              clients := mapSet s.clients clientId
                { info with role := some Role.broadcaster } }
            let room1 :=
              if room.name ≠ roomName then { room with name := roomName } else room
            let room2 := { room1 with password := orNull password }
            let cleared :=
              match room2.reconnectTimeout with
              | some tid =>
                ({ room2 with reconnectTimeout := none },
                 { s1 with liveTimers := mapDel s1.liveTimers tid })
              | none => (room2, s1)
            let room3 := { cleared.1 with status := RoomStatus.active }
            let s2 := { cleared.2 with rooms := mapSet cleared.2.rooms rid room3 }
            let notices := room.viewers.filterMap (fun vp =>
              match resolvePid s2 vp with
              | some vc =>
                if vp ≠ some pid then
                  some (vc.id, OutMsg.broadcasterRejoined rid pid)
                else none
              | none => none)
            (s2, (clientId, OutMsg.roomRejoined rid room3.name) :: notices)

/-- `handleListRooms` (part_001 lines 230-242): a read-only snapshot; the
broadcaster username is looked up live and the password value itself is
replaced by a boolean. -/
def handleListRooms (s : ServerState) (clientId : String) : ServerState × List Sent :=
  let entries := s.rooms.map (fun p =>
    { roomId := (Prod.snd p).id, roomName := (Prod.snd p).name,
      broadcasterName :=
        ((resolvePid s (Prod.snd p).broadcasterId).bind Client.username),
      viewerCount := (Prod.snd p).viewers.length,
      isPasswordProtected := (Prod.snd p).password ≠ none : RoomListEntry })
  (s, [(clientId, OutMsg.roomList entries)])

/-- `handleJoinRoom` (part_001 lines 249-299).
Modelled from the spec: the transcribed source body begins at
`if (!room)` and refers to `room`, `roomId` and `password` without the
opening destructuring lines; spec section 9 states the intended contract —
destructure `{roomId, password}` from the payload, look the room up, and
check NotFound before PasswordIncorrect, in that order.  Those opening
lines are restored here; the rest follows the source text: reply an error
for a missing room; reply PASSWORD_INCORRECT when a non-null stored
password differs from the supplied one; otherwise add the identity to the
viewer set, index it to this room, set the viewer role, reply joined-room,
notify the broadcaster (with the joiner's current muted flag), tell a
still-muted returning viewer its own status and report an active anchor
mute. -/
def handleJoinRoom (s : ServerState) (clientId : String)
    (roomId password : Option String) : ServerState × List Sent :=
  match mapGet s.clients clientId with
  | none => (s, [])
  | some info =>
    match roomId.bind (fun rid => (mapGet s.rooms rid).map (fun room => (rid, room))) with
    | none => (s, [(clientId, OutMsg.errorReply "房间未找到" none)])
    | some (rid, room) =>
      if room.password ≠ none ∧ room.password ≠ password then
        (s, [(clientId, OutMsg.errorReply "密码错误" (some "PASSWORD_INCORRECT"))])
      else
        let viewerId := info.persistentId
        let room2 := { room with viewers := setAdd room.viewers viewerId }
        let s2 := { s with
          rooms := mapSet s.rooms rid room2,
          persistentIdToRoomId := mapSet s.persistentIdToRoomId viewerId rid,
          clients := mapSet s.clients clientId { info with role := some Role.viewer } }
        let toBroadcaster :=
          match resolvePid s2 room2.broadcasterId with
          | some bc =>
            [(bc.id, OutMsg.newViewer viewerId info.username
                (viewerId ∈ room2.mutedViewers))]
          | none => []
        let selfMuted :=
          if viewerId ∈ room2.mutedViewers then
            [(clientId, OutMsg.viewerMutedStatus viewerId true)]
          else []
        let anchorNote :=
          if room2.isAnchorMuted then
            [(clientId, OutMsg.anchorStatus true room2.broadcasterId true)]
          else []
        (s2, (clientId, OutMsg.joinedRoom rid) :: (toBroadcaster ++ selfMuted ++ anchorNote))

/-- `handleLeaveRoom` (part_001 lines 305-324): look the leaver's room up
through the identity index; remove the identity from `viewers` only — the
source deliberately keeps `mutedViewers` so a returning muted viewer stays
muted — notify the broadcaster, then always clear the identity-to-room
index entry and the role. -/
def handleLeaveRoom (s : ServerState) (clientId : String) : ServerState × List Sent :=
  match mapGet s.clients clientId with
  | none => (s, [])
  | some info =>
    let viewerId := info.persistentId
    match mapGet s.persistentIdToRoomId viewerId with
    | none => (s, [])
    | some rid =>
      let inRoom :=
        match mapGet s.rooms rid with
        | some room =>
          let room2 := { room with viewers := setDel room.viewers viewerId }
          let s1 := { s with rooms := mapSet s.rooms rid room2 }
          let note :=
            match resolvePid s1 room2.broadcasterId with
            | some bc => [(bc.id, OutMsg.viewerLeft viewerId)]
            | none => []
          (s1, note)
        | none => (s, [])
      ({ inRoom.1 with
          persistentIdToRoomId := mapDel inRoom.1.persistentIdToRoomId viewerId,
          clients := mapSet inRoom.1.clients clientId { info with role := none } },
       inRoom.2)

/-- `handleDisconnect` (part_001 lines 330-396).  A connection without a
registered identity is simply dropped.  A broadcaster: mark the room
pending_rejoin, notify every resolvable viewer of the outage, schedule the
reconnect timer and store its id on the room — note the source neither
cancels a previously stored timer nor checks whether the identity is
still bound to this same transient connection; if the indexed room is
missing the source returns early, leaving the client and identity entries
behind.  A viewer: remove the identity from both `viewers` and
`mutedViewers`, notify the broadcaster, clear the identity-to-room entry.
Finally the client entry and the identity-to-connection entry are deleted
unconditionally. -/
def handleDisconnect (s : ServerState) (clientId : String) : ServerState × List Sent :=
  match mapGet s.clients clientId with
  | none => ({ s with clients := mapDel s.clients clientId }, [])
  | some info =>
    match info.persistentId with
    | none => ({ s with clients := mapDel s.clients clientId }, [])
    | some pid =>
      if pid = "" then ({ s with clients := mapDel s.clients clientId }, []) else
      match mapGet s.persistentIdToRoomId (some pid) with
      | some rid =>
        if info.role = some Role.broadcaster then
          match mapGet s.rooms rid with
          | none => (s, [])
          | some room =>
            let room2 := { room with status := RoomStatus.pendingRejoin }
            let s1 := { s with rooms := mapSet s.rooms rid room2 }
            let outages := room2.viewers.filterMap (fun vp =>
              (resolvePid s1 vp).map
                (fun vc => (vc.id, OutMsg.broadcasterDisconnected rid)))
            let tid := s1.nextTimerId
            let room3 := { room2 with reconnectTimeout := some tid }
            let s2 := { s1 with
              rooms := mapSet s1.rooms rid room3,
              liveTimers := s1.liveTimers ++ [(tid, rid)],
              nextTimerId := tid + 1 }
            ({ s2 with
                clients := mapDel s2.clients clientId,
                persistentIdToClientId :=
                  mapDel s2.persistentIdToClientId (some pid) }, outages)
        else if info.role = some Role.viewer then
          let inRoom :=
            match mapGet s.rooms rid with
            | some room =>
              let room2 := { room with
                viewers := setDel room.viewers (some pid),
                mutedViewers := setDel room.mutedViewers (some pid) }
              let s1 := { s with rooms := mapSet s.rooms rid room2 }
              let note :=
                match resolvePid s1 room2.broadcasterId with
                | some bc => [(bc.id, OutMsg.viewerLeft (some pid))]
                | none => []
              (s1, note)
            | none => (s, [])
          ({ inRoom.1 with
              persistentIdToRoomId := mapDel inRoom.1.persistentIdToRoomId (some pid),
              clients := mapDel inRoom.1.clients clientId,
              persistentIdToClientId :=
                mapDel inRoom.1.persistentIdToClientId (some pid) },
           inRoom.2)
        else
          ({ s with
              clients := mapDel s.clients clientId,
              persistentIdToClientId := mapDel s.persistentIdToClientId (some pid) }, [])
      | none =>
        ({ s with
            clients := mapDel s.clients clientId,
            persistentIdToClientId := mapDel s.persistentIdToClientId (some pid) }, [])

/-- One iteration of the reconnect-timeout callback's `viewers.forEach`:
when the viewer still resolves, send it room-closed and clear its
identity-to-room entry. -/
def closeNotifyFold (rid : String) (acc : ServerState × List Sent)
    (vp : Option String) : ServerState × List Sent :=
  match resolvePid acc.1 vp with
  | some vc =>
    ({ acc.1 with persistentIdToRoomId := mapDel acc.1.persistentIdToRoomId vp },
     acc.2 ++ [(vc.id, OutMsg.roomClosed rid)])
  | none => acc

/-- Body of the reconnect-timeout callback (part_001 lines 363-375): for
each viewer of the captured room that still resolves to a live connection,
send room-closed and clear its identity-to-room entry, then delete the room.
The source performs no re-check of the room status. -/
def fireBody (s : ServerState) (rid : String) (room : Room) : ServerState × List Sent :=
  let folded := room.viewers.foldl (closeNotifyFold rid) ((s, []) : ServerState × List Sent)
  match mapGet folded.1.rooms rid with
  | some r2 =>
    ({ folded.1 with rooms := mapDel folded.1.rooms rid,
                     removedRooms := mapSet folded.1.removedRooms rid r2 },
     folded.2)
  | none => folded

/-- The runtime firing a reconnect timer: a callback runs only while its
timer is scheduled and uncancelled; it then acts on the room object it
captured at scheduling time (still reachable through `removedRooms` if the
room was deleted meanwhile — the source callback holds the object itself). -/
def fireReconnectTimer (s : ServerState) (tid : Nat) : ServerState × List Sent :=
  match mapGet s.liveTimers tid with
  | none => (s, [])
  | some rid =>
    let s0 := { s with liveTimers := mapDel s.liveTimers tid }
    match mapGet s0.rooms rid with
    | some room => fireBody s0 rid room
    | none =>
      match mapGet s0.removedRooms rid with
      | some room => fireBody s0 rid room
      | none => (s0, [])

/-- `handleMuteViewer` (part_001 lines 403-427): the actor must be indexed
to a room it broadcasts and the target must currently be a viewer of it;
add the target to `mutedViewers` (a JS `Set.add`, idempotent) and notify
the target (if resolvable) and the actor with `isMuted: true`. -/
def handleMuteViewer (s : ServerState) (clientId : String)
    (targetId : Option String) : ServerState × List Sent :=
  match mapGet s.clients clientId with
  | none => (s, [])
  | some info =>
    match mapGet s.persistentIdToRoomId info.persistentId with
    | none => (s, [])
    | some rid =>
      match mapGet s.rooms rid with
      | none => (s, [])
      | some room =>
        if room.broadcasterId ≠ info.persistentId then (s, [])
        else if targetId ∉ room.viewers then (s, [])
        else
          let room2 := { room with mutedViewers := setAdd room.mutedViewers targetId }
          let s2 := { s with rooms := mapSet s.rooms rid room2 }
          let toTarget :=
            match (mapGet s2.persistentIdToClientId targetId).bind
                (mapGet s2.clients) with
            | some tc => [(tc.id, OutMsg.viewerMutedStatus targetId true)]
            | none => []
          (s2, toTarget ++ [(clientId, OutMsg.viewerMutedStatus targetId true)])

/-- `handleUnmuteViewer` (part_001 lines 434-458): same guards as mute;
delete the target from `mutedViewers` and notify both with `isMuted: false`. -/
def handleUnmuteViewer (s : ServerState) (clientId : String)
    (targetId : Option String) : ServerState × List Sent :=
  match mapGet s.clients clientId with
  | none => (s, [])
  | some info =>
    match mapGet s.persistentIdToRoomId info.persistentId with
    | none => (s, [])
    | some rid =>
      match mapGet s.rooms rid with
      | none => (s, [])
      | some room =>
        if room.broadcasterId ≠ info.persistentId then (s, [])
        else if targetId ∉ room.viewers then (s, [])
        else
          let room2 := { room with mutedViewers := setDel room.mutedViewers targetId }
          let s2 := { s with rooms := mapSet s.rooms rid room2 }
          let toTarget :=
            match (mapGet s2.persistentIdToClientId targetId).bind
                (mapGet s2.clients) with
            | some tc => [(tc.id, OutMsg.viewerMutedStatus targetId false)]
            | none => []
          (s2, toTarget ++ [(clientId, OutMsg.viewerMutedStatus targetId false)])

/-- `handleAnchorMuteStatus` (part_001 lines 467-489): everything is keyed
on the payload's `anchorId` — the room is the one the `anchorId` identity
is indexed to, and the guard compares `room.broadcasterId` with `anchorId`;
the sending client's own identity (`clientInfo`) is never consulted.  On
success the anchor-mute flag is set and the inbound message type is
broadcast to every resolvable viewer. -/
def handleAnchorMuteStatus (s : ServerState) (clientId : String)
    (muteType : Bool) (anchorId : Option String) (isMuted : Bool) :
    ServerState × List Sent :=
  match mapGet s.clients clientId with
  | none => (s, [])
  | some _info =>
    match mapGet s.persistentIdToRoomId anchorId with
    | none => (s, [])
    | some rid =>
      match mapGet s.rooms rid with
      | none => (s, [])
      | some room =>
        if room.broadcasterId ≠ anchorId then (s, [])
        else
          let room2 := { room with isAnchorMuted := isMuted }
          let s2 := { s with rooms := mapSet s.rooms rid room2 }
          let outs := room2.viewers.filterMap (fun vp =>
            (resolvePid s2 vp).map
              (fun vc => (vc.id, OutMsg.anchorStatus muteType anchorId isMuted)))
          (s2, outs)

/-- `routeP2PMessage` (part_001 lines 496-510): require a truthy targetId;
resolve it; when found, forward the same message kind with the payload
fields preserved and `senderId` added; otherwise drop with no reply.  No
registry is touched. -/
def routeP2PMessage (s : ServerState) (senderId : Option String)
    (kind : RelayKind) (payload : P2PPayload) : ServerState × List Sent :=
  match payload.targetId with
  | none => (s, [])
  | some tgt =>
    if tgt = "" then (s, []) else
    match (mapGet s.persistentIdToClientId (some tgt)).bind (mapGet s.clients) with
    | some tc =>
      (s, [(tc.id, OutMsg.relayed kind payload.targetId payload.body senderId)])
    | none => (s, [])

/-- `handleKickUser` (part_001 lines 517-544): same authorization guards as
mute; send the target a kicked notice.  The delayed `ws.close()` that
follows is a transport action whose eventual close event is an ordinary
disconnect in the event model; no registry changes here. -/
def handleKickUser (s : ServerState) (clientId : String)
    (targetId : Option String) : ServerState × List Sent :=
  match mapGet s.clients clientId with
  | none => (s, [])
  | some info =>
    match mapGet s.persistentIdToRoomId info.persistentId with
    | none => (s, [])
    | some rid =>
      match mapGet s.rooms rid with
      | none => (s, [])
      | some room =>
        if room.broadcasterId ≠ info.persistentId then (s, [])
        else if targetId ∉ room.viewers then (s, [])
        else
          match (mapGet s.persistentIdToClientId targetId).bind (mapGet s.clients) with
          | some tc => (s, [(tc.id, OutMsg.kicked "您已被主播移出直播间")])
          | none => (s, [])

/-- A decoded client-to-server envelope. -/
inductive ClientMsg
  | register (persistentId username : Option String)
  | createRoom (roomName password : Option String)
  | rejoinRoom (roomId roomName password : Option String)
  | listRooms
  | joinRoom (roomId password : Option String)
  | leaveRoom
  | muteViewer (targetId : Option String)
  | unmuteViewer (targetId : Option String)
  | p2p (kind : RelayKind) (payload : P2PPayload)
  | kickUser (targetId : Option String)
  | anchor (muteType : Bool) (anchorId : Option String) (isMuted : Bool)
deriving DecidableEq, Repr

/-- The `ws.on('message')` dispatcher (part_001 lines 41-104): drop the
message when the connection's client record is gone, otherwise dispatch on
the envelope type. -/
def handleMessage (s : ServerState) (clientId : String) (m : ClientMsg) :
    ServerState × List Sent :=
  match mapGet s.clients clientId with
  | none => (s, [])
  | some info =>
    match m with
    | ClientMsg.register pid u => handleRegistration s clientId pid u
    | ClientMsg.createRoom n p => handleCreateRoom s clientId n p
    | ClientMsg.rejoinRoom r n p => handleRejoinRoom s clientId r n p
    | ClientMsg.listRooms => handleListRooms s clientId
    | ClientMsg.joinRoom r p => handleJoinRoom s clientId r p
    | ClientMsg.leaveRoom => handleLeaveRoom s clientId
    | ClientMsg.muteViewer t => handleMuteViewer s clientId t
    | ClientMsg.unmuteViewer t => handleUnmuteViewer s clientId t
    | ClientMsg.p2p k pl => routeP2PMessage s info.persistentId k pl
    | ClientMsg.kickUser t => handleKickUser s clientId t
    | ClientMsg.anchor mt a im => handleAnchorMuteStatus s clientId mt a im

/-- An observable event of the single-threaded loop. -/
inductive Event
  | connect (clientId : String)
  | message (clientId : String) (msg : ClientMsg)
  | close (clientId : String)
  | timerFire (timerId : Nat)
deriving DecidableEq, Repr

/-- One event processed to completion.  A connect with an id already in use
cannot occur (`uuidv4` per socket) and stutters; a timer fire for a timer
that is not live (cancelled or already fired) never runs its callback. -/
def step (s : ServerState) (e : Event) : ServerState × List Sent :=
  match e with
  | Event.connect cid =>
    if (mapGet s.clients cid).isSome then (s, [])
    else ({ s with clients := mapSet s.clients cid { id := cid } }, [])
  | Event.message cid m => handleMessage s cid m
  | Event.close cid => handleDisconnect s cid
  | Event.timerFire tid => fireReconnectTimer s tid

/-- Run a sequence of events, collecting every send in order. -/
def run (s : ServerState) : List Event → ServerState × List Sent
  | [] => (s, [])
  | e :: es =>
    let first := step s e
    let rest := run first.1 es
    (rest.1, first.2 ++ rest.2)

/-- In every room of a room registry, every muted viewer is currently a
viewer. -/
def roomsOk (rs : List (String × Room)) : Prop :=
  ∀ p ∈ rs, ∀ x ∈ (Prod.snd p).mutedViewers, x ∈ (Prod.snd p).viewers

instance roomsOkDecidable (rs : List (String × Room)) : Decidable (roomsOk rs) :=
  inferInstanceAs (Decidable (∀ p ∈ rs, ∀ x ∈ (Prod.snd p).mutedViewers,
    x ∈ (Prod.snd p).viewers))

/-- Spec section 8, first invariant, as a predicate on a state: in every
room, every muted viewer is currently a viewer. -/
def mutedSubsetInv (s : ServerState) : Prop :=
  roomsOk s.rooms

/-- Spec section 8, second invariant, as a predicate on a state: no
identity appears in two distinct rooms' viewer sets. -/
def viewersDisjointInv (s : ServerState) : Prop :=
  ∀ p ∈ s.rooms, ∀ q ∈ s.rooms, ∀ x ∈ (Prod.snd p).viewers,
    x ∈ (Prod.snd q).viewers → Prod.fst p = Prod.fst q

instance mutedSubsetInvDecidable (s : ServerState) : Decidable (mutedSubsetInv s) :=
  inferInstanceAs (Decidable (roomsOk s.rooms))

instance viewersDisjointInvDecidable (s : ServerState) :
    Decidable (viewersDisjointInv s) :=
  inferInstanceAs (Decidable (∀ p ∈ s.rooms, ∀ q ∈ s.rooms,
    ∀ x ∈ (Prod.snd p).viewers, x ∈ (Prod.snd q).viewers → Prod.fst p = Prod.fst q))

/-- Trace for claim C1: broadcaster "b" creates a room on connection c1,
viewer "v" joins on c2; b opens a second connection c3 during a network
glitch, registers and rejoins (the room is still active, the rejoin
succeeds and makes c3 a broadcaster-role connection too); then both
broadcaster connections close in turn — the first close arms reconnect
timer 0, the second overwrites the stored handle with timer 1 without
cancelling timer 0 — b reconnects on c4 and performs a valid rejoin well
inside the grace period, which cancels only timer 1; finally leaked timer
0 fires at the end of its 20-second delay. -/
def c1Events : List Event :=
  [ Event.connect "c1",
    Event.message "c1" (ClientMsg.register (some "b") (some "bob")),
    Event.message "c1" (ClientMsg.createRoom (some "X") none),
    Event.connect "c2",
    Event.message "c2" (ClientMsg.register (some "v") (some "vic")),
    Event.message "c2" (ClientMsg.joinRoom (some "room-0") none),
    Event.connect "c3",
    Event.message "c3" (ClientMsg.register (some "b") (some "bob")),
    Event.message "c3" (ClientMsg.rejoinRoom (some "room-0") (some "X") none),
    Event.close "c1",
    Event.close "c3",
    Event.connect "c4",
    Event.message "c4" (ClientMsg.register (some "b") (some "bob")),
    Event.message "c4" (ClientMsg.rejoinRoom (some "room-0") (some "X") none),
    Event.timerFire 0 ]

/-- Trace for claim C8: the same double-disconnect scenario as `c1Events`
(distinct connection ids), stopped just before leaked timer 0 fires, so
the state at fire time can be inspected. -/
def c8Prefix : List Event :=
  [ Event.connect "d1",
    Event.message "d1" (ClientMsg.register (some "b") (some "bob")),
    Event.message "d1" (ClientMsg.createRoom (some "X") none),
    Event.connect "d2",
    Event.message "d2" (ClientMsg.register (some "v") (some "vic")),
    Event.message "d2" (ClientMsg.joinRoom (some "room-0") none),
    Event.connect "d3",
    Event.message "d3" (ClientMsg.register (some "b") (some "bob")),
    Event.message "d3" (ClientMsg.rejoinRoom (some "room-0") (some "X") none),
    Event.close "d1",
    Event.close "d3",
    Event.connect "d4",
    Event.message "d4" (ClientMsg.register (some "b") (some "bob")),
    Event.message "d4" (ClientMsg.rejoinRoom (some "room-0") (some "X") none) ]

/-- Trace for claim C5: identity "p" registers on e1, reconnects and
re-registers on e2 (fresh binding p -> e2), then the stale socket e1's
close event fires. -/
def c5Events : List Event :=
  [ Event.connect "e1",
    Event.message "e1" (ClientMsg.register (some "p") (some "alice")),
    Event.connect "e2",
    Event.message "e2" (ClientMsg.register (some "p") (some "alice")),
    Event.close "e1" ]

/-- Trace prefix for claim C6: broadcaster "b" on f1 owns room-0, viewer
"v" on f2 is a member.  The probe event (a live.anchor.mute sent by the
viewer's connection f2 but naming the true broadcaster in the payload) is
applied on top of this prefix. -/
def c6Prefix : List Event :=
  [ Event.connect "f1",
    Event.message "f1" (ClientMsg.register (some "b") (some "bob")),
    Event.message "f1" (ClientMsg.createRoom (some "X") none),
    Event.connect "f2",
    Event.message "f2" (ClientMsg.register (some "v") (some "vic")),
    Event.message "f2" (ClientMsg.joinRoom (some "room-0") none) ]

/-- Trace for claim C2: broadcaster "b" mutes viewer "v", then "v" sends an
explicit leave-room. -/
def c2Events : List Event :=
  [ Event.connect "g1",
    Event.message "g1" (ClientMsg.register (some "b") (some "bob")),
    Event.message "g1" (ClientMsg.createRoom (some "X") none),
    Event.connect "g2",
    Event.message "g2" (ClientMsg.register (some "v") (some "vic")),
    Event.message "g2" (ClientMsg.joinRoom (some "room-0") none),
    Event.message "g1" (ClientMsg.muteViewer (some "v")),
    Event.message "g2" ClientMsg.leaveRoom ]

/-- Trace for claim C3: two rooms by two broadcasters; viewer "v" joins
room-0 and then, without leaving, joins room-1. -/
def c3Events : List Event :=
  [ Event.connect "h1",
    Event.message "h1" (ClientMsg.register (some "b1") (some "bob")),
    Event.message "h1" (ClientMsg.createRoom (some "A") none),
    Event.connect "h2",
    Event.message "h2" (ClientMsg.register (some "b2") (some "bill")),
    Event.message "h2" (ClientMsg.createRoom (some "B") none),
    Event.connect "h3",
    Event.message "h3" (ClientMsg.register (some "v") (some "vic")),
    Event.message "h3" (ClientMsg.joinRoom (some "room-0") none),
    Event.message "h3" (ClientMsg.joinRoom (some "room-1") none) ]

/-- Trace prefix for claim C7's counterexample: room-0 with viewer "v"
already muted once, so that `mutedViewers = [some "v"]` is the state prior
to the probed mute/unmute pair. -/
def c7Prefix : List Event :=
  [ Event.connect "i1",
    Event.message "i1" (ClientMsg.register (some "b") (some "bob")),
    Event.message "i1" (ClientMsg.createRoom (some "X") none),
    Event.connect "i2",
    Event.message "i2" (ClientMsg.register (some "v") (some "vic")),
    Event.message "i2" (ClientMsg.joinRoom (some "room-0") none),
    Event.message "i1" (ClientMsg.muteViewer (some "v")) ]

/-- The probed pair for claim C7: mute then unmute of the same target. -/
def c7Pair : List Event :=
  [ Event.message "i1" (ClientMsg.muteViewer (some "v")),
    Event.message "i1" (ClientMsg.unmuteViewer (some "v")) ]

/-- Concrete broadcaster client record used by witnesses. -/
def demoB : Client :=
  { id := "cb", persistentId := some "b", username := some "bob",
    role := some Role.broadcaster }

/-- Concrete viewer client record used by witnesses. -/
def demoV : Client :=
  { id := "cv", persistentId := some "v", username := some "vic",
    role := some Role.viewer }

/-- Concrete bystander client record used by witnesses. -/
def demoW : Client :=
  { id := "cw", persistentId := some "w", username := some "wes", role := none }

/-- Concrete room used by witnesses: owned by "b", password "pw", viewer
"v" currently a member and not muted. -/
def demoRoom : Room :=
  { id := "r1", name := some "X", broadcasterId := some "b",
    viewers := [some "v"], mutedViewers := [], isAnchorMuted := false,
    status := RoomStatus.active, reconnectTimeout := none,
    password := some "pw" }

/-- Concrete server state used by witnesses. -/
def demoState : ServerState :=
  { clients := [("cb", demoB), ("cv", demoV), ("cw", demoW)],
    persistentIdToClientId := [(some "b", "cb"), (some "v", "cv"), (some "w", "cw")],
    rooms := [("r1", demoRoom)],
    persistentIdToRoomId := [(some "b", "r1"), (some "v", "r1")],
    removedRooms := [], liveTimers := [], nextTimerId := 0, nextUuid := 0 }

/-! Helper lemmas about the map and set primitives. -/

theorem mapGet_mapSet_self {α β : Type} [DecidableEq α] (m : List (α × β)) (k : α) (v : β) :
    mapGet (mapSet m k v) k = some v := by
  induction m with
  | nil => simp [mapSet, mapGet]
  | cons p rest ih =>
    obtain ⟨k2, v2⟩ := p
    by_cases h : k2 = k
    · simp [mapSet, mapGet, h]
    · simp [mapSet, mapGet, h, ih]

theorem mapGet_mapSet_ne {α β : Type} [DecidableEq α] (m : List (α × β)) (k k2 : α) (v : β)
    (h : k ≠ k2) : mapGet (mapSet m k v) k2 = mapGet m k2 := by
  induction m with
  | nil => simp [mapSet, mapGet, h]
  | cons p rest ih =>
    obtain ⟨k3, v3⟩ := p
    by_cases h3 : k3 = k
    · subst h3
      simp [mapSet, mapGet, h]
    · simp only [mapSet, if_neg h3, mapGet]
      by_cases h4 : k3 = k2 <;> simp [h4, ih]

theorem mem_mapSet {α β : Type} [DecidableEq α] {m : List (α × β)} {k : α} {v : β}
    {p : α × β} (hp : p ∈ mapSet m k v) : p = (k, v) ∨ p ∈ m := by
  induction m with
  | nil =>
    simp only [mapSet, List.mem_singleton] at hp
    exact Or.inl hp
  | cons q rest ih =>
    obtain ⟨k2, v2⟩ := q
    by_cases h : k2 = k
    · simp only [mapSet, if_pos h, List.mem_cons] at hp
      rcases hp with hp | hp
      · exact Or.inl hp
      · exact Or.inr (List.mem_cons_of_mem _ hp)
    · simp only [mapSet, if_neg h, List.mem_cons] at hp
      rcases hp with hp | hp
      · exact Or.inr (by simp [hp])
      · rcases ih hp with hp2 | hp2
        · exact Or.inl hp2
        · exact Or.inr (List.mem_cons_of_mem _ hp2)

theorem mem_mapDel {α β : Type} [DecidableEq α] {m : List (α × β)} {k : α}
    {p : α × β} (hp : p ∈ mapDel m k) : p ∈ m := by
  induction m with
  | nil => simp [mapDel] at hp
  | cons q rest ih =>
    obtain ⟨k2, v2⟩ := q
    by_cases h : k2 = k
    · simp only [mapDel, if_pos h] at hp
      exact List.mem_cons_of_mem _ hp
    · simp only [mapDel, if_neg h, List.mem_cons] at hp
      rcases hp with hp | hp
      · simp [hp]
      · exact List.mem_cons_of_mem _ (ih hp)

theorem mapGet_mem {α β : Type} [DecidableEq α] {m : List (α × β)} {k : α} {v : β}
    (h : mapGet m k = some v) : (k, v) ∈ m := by
  induction m with
  | nil => simp [mapGet] at h
  | cons q rest ih =>
    obtain ⟨k2, v2⟩ := q
    by_cases h2 : k2 = k
    · subst h2
      have h3 : v2 = v := by simpa [mapGet] using h
      subst h3
      exact List.mem_cons_self _ _
    · simp only [mapGet, if_neg h2] at h
      exact List.mem_cons_of_mem _ (ih h)

theorem mapSet_mapSet {α β : Type} [DecidableEq α] (m : List (α × β)) (k : α) (v w : β) :
    mapSet (mapSet m k v) k w = mapSet m k w := by
  induction m with
  | nil => simp [mapSet]
  | cons q rest ih =>
    obtain ⟨k2, v2⟩ := q
    by_cases h : k2 = k
    · simp [mapSet, h]
    · simp [mapSet, h, ih]

theorem mapSet_self_eq {α β : Type} [DecidableEq α] {m : List (α × β)} {k : α} {v : β}
    (h : mapGet m k = some v) : mapSet m k v = m := by
  induction m with
  | nil => simp [mapGet] at h
  | cons q rest ih =>
    obtain ⟨k2, v2⟩ := q
    by_cases h2 : k2 = k
    · subst h2
      have h3 : v2 = v := by simpa [mapGet] using h
      subst h3
      simp [mapSet]
    · simp only [mapGet, if_neg h2] at h
      simp [mapSet, h2, ih h]

theorem mem_setAdd_of_mem {α : Type} [DecidableEq α] {s : List α} {x : α} (y : α)
    (h : x ∈ s) : x ∈ setAdd s y := by
  unfold setAdd
  split
  · exact h
  · exact List.mem_append_left _ h

theorem mem_of_mem_setAdd {α : Type} [DecidableEq α] {s : List α} {x y : α}
    (h : x ∈ setAdd s y) : x ∈ s ∨ x = y := by
  unfold setAdd at h
  split at h
  · exact Or.inl h
  · rcases List.mem_append.mp h with h2 | h2
    · exact Or.inl h2
    · simp only [List.mem_singleton] at h2
      exact Or.inr h2

theorem mem_setDel_iff {α : Type} [DecidableEq α] (s : List α) (x y : α) :
    x ∈ setDel s y ↔ x ∈ s ∧ x ≠ y := by
  simp [setDel, List.mem_filter]

theorem setAdd_idem {α : Type} [DecidableEq α] (s : List α) (x : α) :
    setAdd (setAdd s x) x = setAdd s x := by
  unfold setAdd
  split
  · simp_all
  · simp

theorem filterNe_append_self {α : Type} [DecidableEq α] (s : List α) (x : α)
    (h : x ∉ s) : List.filter (fun y => y ≠ x) (s ++ [x]) = s := by
  induction s with
  | nil => simp
  | cons a rest ih =>
    simp only [List.mem_cons, not_or] at h
    have ha : (decide (a ≠ x)) = true := by
      simp only [ne_eq, decide_eq_true_eq]
      exact fun hax => h.1 hax.symm
    simp only [List.cons_append, List.filter_cons, ha, if_true]
    exact congrArg (a :: ·) (ih h.2)

theorem setDel_setAdd_of_not_mem {α : Type} [DecidableEq α] {s : List α} {x : α}
    (h : x ∉ s) : setDel (setAdd s x) x = s := by
  unfold setAdd setDel
  rw [if_neg h]
  exact filterNe_append_self s x h

theorem mem_setAdd_self {α : Type} [DecidableEq α] (s : List α) (x : α) :
    x ∈ setAdd s x := by
  unfold setAdd
  split
  · assumption
  · exact List.mem_append_right _ (List.mem_singleton_self x)

theorem roomsOk_mapSet {rs : List (String × Room)} {rid : String} {room : Room}
    (h : roomsOk rs) (hr : ∀ x ∈ room.mutedViewers, x ∈ room.viewers) :
    roomsOk (mapSet rs rid room) := by
  intro p hp x hx
  rcases mem_mapSet hp with h1 | h1
  · subst h1
    exact hr x hx
  · exact h p h1 x hx

theorem roomsOk_mapDel {rs : List (String × Room)} {rid : String}
    (h : roomsOk rs) : roomsOk (mapDel rs rid) :=
  fun p hp => h p (mem_mapDel hp)

theorem state_handleListRooms (s : ServerState) (cid : String) :
    (handleListRooms s cid).1 = s := rfl

theorem state_routeP2PMessage (s : ServerState) (sid : Option String)
    (k : RelayKind) (pl : P2PPayload) : (routeP2PMessage s sid k pl).1 = s := by
  unfold routeP2PMessage
  repeat first | rfl | split

theorem state_handleKickUser (s : ServerState) (cid : String) (t : Option String) :
    (handleKickUser s cid t).1 = s := by
  unfold handleKickUser
  repeat first | rfl | split

theorem rooms_handleRegistration (s : ServerState) (cid : String)
    (p u : Option String) : (handleRegistration s cid p u).1.rooms = s.rooms := by
  unfold handleRegistration
  repeat first | rfl | split

theorem rooms_closeNotifyFold (rid : String) (vs : List (Option String))
    (acc : ServerState × List Sent) :
    (vs.foldl (closeNotifyFold rid) acc).1.rooms = acc.1.rooms := by
  induction vs generalizing acc with
  | nil => rfl
  | cons v rest ih =>
    rw [List.foldl_cons, ih]
    unfold closeNotifyFold
    repeat first | rfl | split

theorem invPres_handleCreateRoom (s : ServerState) (cid : String)
    (n p : Option String) (h : roomsOk s.rooms) :
    roomsOk (handleCreateRoom s cid n p).1.rooms := by
  unfold handleCreateRoom
  split
  · exact h
  · split
    · exact h
    · split
      · exact h
      · exact roomsOk_mapSet h (by intro x hx; simp at hx)

theorem invPres_handleJoinRoom (s : ServerState) (cid : String)
    (rid pw : Option String) (h : roomsOk s.rooms) :
    roomsOk (handleJoinRoom s cid rid pw).1.rooms := by
  unfold handleJoinRoom
  split
  · exact h
  · split
    · exact h
    · rename_i info heqc pr heq
      obtain ⟨rid2, room⟩ := pr
      split
      · exact h
      · simp only [Option.bind_eq_some, Option.map_eq_some', Prod.mk.injEq] at heq
        obtain ⟨a, ha, r, hr, rfl, rfl⟩ := heq
        apply roomsOk_mapSet h
        intro x hx
        exact mem_setAdd_of_mem _ (h _ (mapGet_mem hr) x hx)

theorem invPres_handleMuteViewer (s : ServerState) (cid : String)
    (tgt : Option String) (h : roomsOk s.rooms) :
    roomsOk (handleMuteViewer s cid tgt).1.rooms := by
  unfold handleMuteViewer
  split
  · exact h
  · split
    · exact h
    · split
      · exact h
      · rename_i info heqc rid heqi room heqr
        split
        · exact h
        · split
          · exact h
          · rename_i hb hv
            apply roomsOk_mapSet h
            intro x hx
            rcases mem_of_mem_setAdd hx with h1 | h1
            · exact h _ (mapGet_mem heqr) x h1
            · subst h1
              exact not_not.mp hv

theorem invPres_handleUnmuteViewer (s : ServerState) (cid : String)
    (tgt : Option String) (h : roomsOk s.rooms) :
    roomsOk (handleUnmuteViewer s cid tgt).1.rooms := by
  unfold handleUnmuteViewer
  split
  · exact h
  · split
    · exact h
    · split
      · exact h
      · rename_i info heqc rid heqi room heqr
        split
        · exact h
        · split
          · exact h
          · apply roomsOk_mapSet h
            intro x hx
            rw [mem_setDel_iff] at hx
            exact h _ (mapGet_mem heqr) x hx.1

theorem invPres_handleAnchorMuteStatus (s : ServerState) (cid : String)
    (mt : Bool) (a : Option String) (im : Bool) (h : roomsOk s.rooms) :
    roomsOk (handleAnchorMuteStatus s cid mt a im).1.rooms := by
  unfold handleAnchorMuteStatus
  split
  · exact h
  · split
    · exact h
    · split
      · exact h
      · rename_i info heqc rid heqi room heqr
        split
        · exact h
        · apply roomsOk_mapSet h
          intro x hx
          exact h _ (mapGet_mem heqr) x hx

theorem invPres_handleRejoinRoom (s : ServerState) (cid : String)
    (rid name pw : Option String) (h : roomsOk s.rooms) :
    roomsOk (handleRejoinRoom s cid rid name pw).1.rooms := by
  unfold handleRejoinRoom
  split
  · exact h
  · split
    · exact h
    · split
      · exact h
      · split
        · exact h
        · split
          · exact h
          · rename_i room heqr
            split
            · exact h
            · split <;> dsimp only <;> split <;>
                · apply roomsOk_mapSet h
                  intro x hx
                  exact h _ (mapGet_mem heqr) x hx

theorem invPres_handleLeaveRoom (s : ServerState) (cid : String) (h : roomsOk s.rooms) :
    ∀ p ∈ (handleLeaveRoom s cid).1.rooms, ∀ x ∈ (Prod.snd p).mutedViewers,
      x ∈ (Prod.snd p).viewers
      ∨ ∃ c, mapGet s.clients cid = some c ∧ x = c.persistentId := by
  unfold handleLeaveRoom
  split
  · intro p hp x hx
    exact Or.inl (h p hp x hx)
  · rename_i info heqc
    dsimp only
    split
    · intro p hp x hx
      exact Or.inl (h p hp x hx)
    · rename_i rid heqi
      dsimp only
      split
      · rename_i room heqr
        intro p hp x hx
        rcases mem_mapSet hp with h1 | h1
        · subst h1
          by_cases hxv : x = info.persistentId
          · exact Or.inr ⟨info, heqc, hxv⟩
          · refine Or.inl ?_
            rw [mem_setDel_iff]
            exact ⟨h _ (mapGet_mem heqr) x hx, hxv⟩
        · exact Or.inl (h p h1 x hx)
      · intro p hp x hx
        exact Or.inl (h p hp x hx)

theorem invPres_handleDisconnect (s : ServerState) (cid : String) (h : roomsOk s.rooms) :
    roomsOk (handleDisconnect s cid).1.rooms := by
  unfold handleDisconnect
  split
  · exact h
  · split
    · exact h
    · split
      · exact h
      · split
        · split
          · split
            · exact h
            · rename_i room heqr
              refine roomsOk_mapSet (roomsOk_mapSet h ?_) ?_
              · intro x hx
                exact h _ (mapGet_mem heqr) x hx
              · intro x hx
                exact h _ (mapGet_mem heqr) x hx
          · split
            · split
              · rename_i room heqr
                apply roomsOk_mapSet h
                intro x hx
                rw [mem_setDel_iff] at hx ⊢
                exact ⟨h _ (mapGet_mem heqr) x hx.1, hx.2⟩
              · exact h
            · exact h
        · exact h

theorem invPres_fireBody (s : ServerState) (rid : String) (room : Room)
    (h : roomsOk s.rooms) : roomsOk (fireBody s rid room).1.rooms := by
  unfold fireBody
  have hf := rooms_closeNotifyFold rid room.viewers ((s, []))
  dsimp only
  split
  · apply roomsOk_mapDel
    rw [hf]
    exact h
  · rw [hf]
    exact h

theorem invPres_fireReconnectTimer (s : ServerState) (tid : Nat) (h : roomsOk s.rooms) :
    roomsOk (fireReconnectTimer s tid).1.rooms := by
  unfold fireReconnectTimer
  split
  · exact h
  · dsimp only
    split
    · exact invPres_fireBody _ _ _ h
    · split
      · exact invPres_fireBody _ _ _ h
      · exact h

/-! Claim theorems. -/

/-- C1: the claim states that a valid rejoin for the same room and owning
identity arriving before the 20-second grace period elapses guarantees no
viewer ever receives room-closed, and that without such a rejoin each
viewer gets exactly one room-closed and the room is removed.  The code
violates this: in the reachable trace `c1Events` the broadcaster's stale
and fresh connections close in turn, the second `handleDisconnect`
overwrites `room.reconnectTimeout` without `clearTimeout`, and the later
valid rejoin (acknowledged by the room-rejoined reply counted here)
cancels only the newer timer.  The leaked older timer fires — its callback
re-checks nothing — so the remaining viewer receives room-closed (as the
final send of the trace) and the room is deleted, despite a valid rejoin
for the same room id and identity having arrived and succeeded before any
timer fired. -/
theorem claim1_valid_rejoin_viewer_still_gets_room_closed :
    (run initState c1Events).2.count ("c4", OutMsg.roomRejoined "room-0" (some "X")) = 1
    ∧ (run initState c1Events).2.count ("c2", OutMsg.roomClosed "room-0") = 1
    ∧ (run initState c1Events).2.getLast?
        = some ("c2", OutMsg.roomClosed "room-0")
    ∧ mapGet (run initState c1Events).1.rooms "room-0" = none := by
  decide

/-- C5: the claim states that on a stale socket's close event the
identity-to-connection entry is cleared only when it still points at that
same transient connection, so an identity that re-registered on a new
connection keeps its fresh binding.  The code violates this:
`handleDisconnect` ends with an unconditional
`persistentIdToClientId.delete(persistentId)`.  In `c5Events`, identity
"p" re-registers on connection e2 before the old socket e1's close event
fires; after the stale teardown e2 is still a live connection bound to
"p", yet the index entry is gone and `resolve("p")` fails. -/
theorem claim5_stale_close_erases_fresh_binding :
    ((mapGet (run initState c5Events).1.clients "e2").map Client.persistentId
        = some (some "p"))
    ∧ mapGet (run initState c5Events).1.persistentIdToClientId (some "p") = none
    ∧ resolvePid (run initState c5Events).1 (some "p") = none := by
  decide

/-- C6: the claim states that a live.anchor.mute request is honored only
when the requesting connection's own bound identity is the room's
broadcaster, and that a request from any other identity — even one naming
the true broadcaster in the payload — is dropped with no state change and
no broadcast.  The code violates this: `handleAnchorMuteStatus` keys every
check on the payload's `anchorId` and never consults the sender.  Here the
viewer connection f2 (identity "v") sends live.anchor.mute naming "b";
the anchor-mute flag flips to true and the new state is broadcast. -/
theorem claim6_anchor_mute_honored_for_non_broadcaster_sender :
    ((mapGet (run initState c6Prefix).1.clients "f2").map Client.persistentId
        = some (some "v"))
    ∧ ((mapGet (run initState c6Prefix).1.rooms "room-0").map Room.broadcasterId
        = some (some "b"))
    ∧ ((mapGet (run initState c6Prefix).1.rooms "room-0").map Room.isAnchorMuted
        = some false)
    ∧ ((mapGet (step (run initState c6Prefix).1
          (Event.message "f2" (ClientMsg.anchor true (some "b") true))).1.rooms
          "room-0").map Room.isAnchorMuted = some true)
    ∧ (step (run initState c6Prefix).1
          (Event.message "f2" (ClientMsg.anchor true (some "b") true))).2
        = [("f2", OutMsg.anchorStatus true (some "b") true)] := by
  decide

/-- C8: the claim states that a reconnect-timer fire takes effect only if
the room still exists and is still PendingRejoin at fire time, and that a
fire racing a successful rejoin never closes a room that has returned to
Active.  The code violates this: after the `c8Prefix` trace (a stale
broadcaster connection's close overwrote the armed timer 0 without
cancelling it, and a later valid rejoin cancelled only the newer timer 1
and returned the room to Active), timer 0 is still live; firing it sends
room-closed to the remaining viewer and removes the Active room, because
the callback performs no status re-check. -/
theorem claim8_timer_fire_closes_active_room :
    ((mapGet (run initState c8Prefix).1.rooms "room-0").map Room.status
        = some RoomStatus.active)
    ∧ mapGet (run initState c8Prefix).1.liveTimers 0 = some "room-0"
    ∧ (step (run initState c8Prefix).1 (Event.timerFire 0)).2
        = [("d2", OutMsg.roomClosed "room-0")]
    ∧ mapGet (step (run initState c8Prefix).1 (Event.timerFire 0)).1.rooms "room-0"
        = none := by
  decide

/-- C2 counterexample: after broadcaster "b" mutes viewer "v" and "v" then
performs an explicit leave-room, room-0 has `mutedViewers = [v]` but
`viewers = []` — `handleLeaveRoom` removes the identity from viewers only
and deliberately retains it in mutedViewers — so the claimed invariant
mutedViewers ⊆ viewers fails at an observable instant. -/
theorem claim2_counterexample :
    ¬ mutedSubsetInv (run initState c2Events).1 := by
  decide

/-- C3 counterexample: viewer "v" joins room-0 and then room-1 without
leaving; `handleJoinRoom` re-points the identity-to-room index but never
removes the identity from the previous room's viewer set, so "v" is in
both rooms' viewer sets simultaneously, refuting the claimed invariant. -/
theorem claim3_counterexample :
    ¬ viewersDisjointInv (run initState c3Events).1 := by
  decide

/-- C2 amended: the claimed invariant "mutedViewers ⊆ viewers at every
observable instant" fails exactly at an explicit leave-room (see
`claim2_counterexample`): `handleLeaveRoom` removes the identity from
viewers but deliberately retains it in mutedViewers so a returning muted
viewer stays muted.  What does hold: every event other than an explicit
leave-room message preserves the subset invariant, and after an explicit
leave-room every muted identity of every room is either still a viewer of
that room or is the leaving client's own identity. -/
theorem claim2_muted_subset_preserved_except_explicit_leave :
    (∀ (s : ServerState) (e : Event), mutedSubsetInv s →
        (∀ cid, e ≠ Event.message cid ClientMsg.leaveRoom) →
        mutedSubsetInv (step s e).1)
    ∧ (∀ (s : ServerState) (cid : String), mutedSubsetInv s →
        ∀ p ∈ (step s (Event.message cid ClientMsg.leaveRoom)).1.rooms,
          ∀ x ∈ (Prod.snd p).mutedViewers,
            x ∈ (Prod.snd p).viewers
            ∨ ∃ c, mapGet s.clients cid = some c ∧ x = c.persistentId) := by
  constructor
  · intro s e h hne
    cases e with
    | connect cid =>
      by_cases hc : (mapGet s.clients cid).isSome = true <;>
        simpa [step, hc, mutedSubsetInv] using h
    | message cid m =>
      show roomsOk (handleMessage s cid m).1.rooms
      unfold handleMessage
      split
      · exact h
      · rename_i info heqc
        cases m with
        | register pid u =>
          have hr := rooms_handleRegistration s cid pid u
          show roomsOk (handleRegistration s cid pid u).1.rooms
          rw [hr]
          exact h
        | createRoom n p => exact invPres_handleCreateRoom s cid n p h
        | rejoinRoom r n p => exact invPres_handleRejoinRoom s cid r n p h
        | listRooms => exact h
        | joinRoom r p => exact invPres_handleJoinRoom s cid r p h
        | leaveRoom => exact absurd rfl (hne cid)
        | muteViewer t => exact invPres_handleMuteViewer s cid t h
        | unmuteViewer t => exact invPres_handleUnmuteViewer s cid t h
        | p2p k pl =>
          have hr := state_routeP2PMessage s info.persistentId k pl
          show roomsOk (routeP2PMessage s info.persistentId k pl).1.rooms
          rw [hr]
          exact h
        | kickUser t =>
          have hr := state_handleKickUser s cid t
          show roomsOk (handleKickUser s cid t).1.rooms
          rw [hr]
          exact h
        | anchor mt a im => exact invPres_handleAnchorMuteStatus s cid mt a im h
    | close cid => exact invPres_handleDisconnect s cid h
    | timerFire tid => exact invPres_fireReconnectTimer s tid h
  · intro s cid h
    have h2 := invPres_handleLeaveRoom s cid h
    show ∀ p ∈ (handleMessage s cid ClientMsg.leaveRoom).1.rooms,
      ∀ x ∈ (Prod.snd p).mutedViewers,
        x ∈ (Prod.snd p).viewers
        ∨ ∃ c, mapGet s.clients cid = some c ∧ x = c.persistentId
    unfold handleMessage
    split
    · intro p hp x hx
      exact Or.inl (h p hp x hx)
    · exact h2

/-- Witness for the C2 theorem: at the concrete state `demoState` (which
satisfies the subset invariant) a connect event preserves the invariant. -/
theorem claim2_witness :
    mutedSubsetInv demoState
    ∧ mutedSubsetInv (step demoState (Event.connect "cz")).1 :=
  ⟨by decide,
   claim2_muted_subset_preserved_except_explicit_leave.1 demoState
     (Event.connect "cz") (by decide) (by intro cid; simp)⟩

/-- C7 counterexample: with viewer "v" already muted (`mutedViewers =
[v]`), performing mute-viewer then unmute-viewer on "v" leaves
`mutedViewers = []`, not the prior state — the claim's universally
quantified restoration property fails when the target was already muted. -/
theorem claim7_counterexample :
    ((mapGet (run initState c7Prefix).1.rooms "room-0").map Room.mutedViewers
        = some [some "v"])
    ∧ ((mapGet (run (run initState c7Prefix).1 c7Pair).1.rooms "room-0").map
          Room.mutedViewers = some []) := by
  decide

/-- Helper: joining a room whose stored password is null succeeds (the
joined-room acknowledgement is the first send) regardless of the supplied
password. -/
theorem joinRoom_success_head (s : ServerState) (cid : String) (info : Client)
    (rid : String) (room : Room) (pw : Option String)
    (hc : mapGet s.clients cid = some info)
    (hr : mapGet s.rooms rid = some room)
    (h0 : room.password = none) :
    (handleJoinRoom s cid (some rid) pw).2.head? = some (cid, OutMsg.joinedRoom rid) := by
  simp [handleJoinRoom, hc, hr, h0]

/-- Helper: the outcome of a fully authorized mute-viewer with a
resolvable target. -/
theorem muteViewer_success (s : ServerState) (cid : String) (info : Client)
    (rid : String) (room : Room) (tgt : Option String) (tcid : String) (tc : Client)
    (hc : mapGet s.clients cid = some info)
    (hidx : mapGet s.persistentIdToRoomId info.persistentId = some rid)
    (hroom : mapGet s.rooms rid = some room)
    (hb : room.broadcasterId = info.persistentId)
    (hv : tgt ∈ room.viewers)
    (ht1 : mapGet s.persistentIdToClientId tgt = some tcid)
    (ht2 : mapGet s.clients tcid = some tc) :
    handleMuteViewer s cid tgt
      = ({ s with rooms := mapSet s.rooms rid { room with
            mutedViewers := setAdd room.mutedViewers tgt } },
         [(tc.id, OutMsg.viewerMutedStatus tgt true),
          (cid, OutMsg.viewerMutedStatus tgt true)]) := by
  simp [handleMuteViewer, hc, hidx, hroom, hb, hv, ht1, ht2]

/-- Helper: the outcome of a fully authorized unmute-viewer with a
resolvable target. -/
theorem unmuteViewer_success (s : ServerState) (cid : String) (info : Client)
    (rid : String) (room : Room) (tgt : Option String) (tcid : String) (tc : Client)
    (hc : mapGet s.clients cid = some info)
    (hidx : mapGet s.persistentIdToRoomId info.persistentId = some rid)
    (hroom : mapGet s.rooms rid = some room)
    (hb : room.broadcasterId = info.persistentId)
    (hv : tgt ∈ room.viewers)
    (ht1 : mapGet s.persistentIdToClientId tgt = some tcid)
    (ht2 : mapGet s.clients tcid = some tc) :
    handleUnmuteViewer s cid tgt
      = ({ s with rooms := mapSet s.rooms rid { room with
            mutedViewers := setDel room.mutedViewers tgt } },
         [(tc.id, OutMsg.viewerMutedStatus tgt false),
          (cid, OutMsg.viewerMutedStatus tgt false)]) := by
  simp [handleUnmuteViewer, hc, hidx, hroom, hb, hv, ht1, ht2]

/-- C3 amended: the identity-to-room index is single-valued — a successful
join re-points it at the new room — but `handleJoinRoom` never removes the
joining identity from the viewer set of the room it previously belonged
to: the identity is added to the new room's viewers while every other
room's entry (in particular the old room's, with the identity still in its
viewer set) is left byte-for-byte unchanged.  So the claimed "no identity
in more than one viewer set" invariant does not hold (see
`claim3_counterexample`); what holds is this per-join characterisation. -/
theorem claim3_join_reindexes_without_removing_old_membership
    (s : ServerState) (cid : String) (info : Client) (rid : String) (room : Room)
    (pw : Option String)
    (hc : mapGet s.clients cid = some info)
    (hr : mapGet s.rooms rid = some room)
    (hpw : ¬ (room.password ≠ none ∧ room.password ≠ pw)) :
    mapGet (handleJoinRoom s cid (some rid) pw).1.rooms rid
        = some { room with viewers := setAdd room.viewers info.persistentId }
    ∧ info.persistentId ∈ setAdd room.viewers info.persistentId
    ∧ mapGet (handleJoinRoom s cid (some rid) pw).1.persistentIdToRoomId
        info.persistentId = some rid
    ∧ (∀ r2 roomA, r2 ≠ rid → mapGet s.rooms r2 = some roomA →
        mapGet (handleJoinRoom s cid (some rid) pw).1.rooms r2 = some roomA) := by
  have hj : (handleJoinRoom s cid (some rid) pw).1
      = { s with
          rooms := mapSet s.rooms rid
            { room with viewers := setAdd room.viewers info.persistentId },
          persistentIdToRoomId :=
            mapSet s.persistentIdToRoomId info.persistentId rid,
          clients := mapSet s.clients cid { info with role := some Role.viewer } } := by
    simp [handleJoinRoom, hc, hr, hpw]
  refine ⟨?_, mem_setAdd_self _ _, ?_, ?_⟩
  · rw [hj]
    exact mapGet_mapSet_self _ _ _
  · rw [hj]
    exact mapGet_mapSet_self _ _ _
  · intro r2 roomA hne hA
    rw [hj]
    show mapGet (mapSet s.rooms rid _) r2 = some roomA
    rw [mapGet_mapSet_ne _ _ _ _ (Ne.symm hne)]
    exact hA

/-- Witness for the C3 theorem: bystander "w" joins room r1 of `demoState`
with the correct password. -/
theorem claim3_witness :
    (mapGet demoState.clients "cw" = some demoW
      ∧ mapGet demoState.rooms "r1" = some demoRoom)
    ∧ (mapGet (handleJoinRoom demoState "cw" (some "r1") (some "pw")).1.rooms "r1"
        = some { demoRoom with viewers := setAdd demoRoom.viewers demoW.persistentId }
      ∧ demoW.persistentId ∈ setAdd demoRoom.viewers demoW.persistentId
      ∧ mapGet (handleJoinRoom demoState "cw" (some "r1")
          (some "pw")).1.persistentIdToRoomId demoW.persistentId = some "r1"
      ∧ (∀ r2 roomA, r2 ≠ "r1" → mapGet demoState.rooms r2 = some roomA →
          mapGet (handleJoinRoom demoState "cw" (some "r1") (some "pw")).1.rooms r2
            = some roomA)) :=
  ⟨⟨by decide, by decide⟩,
   claim3_join_reindexes_without_removing_old_membership demoState "cw" demoW "r1"
     demoRoom (some "pw") (by decide) (by decide) (by decide)⟩

/-- C4: join-room error handling, confirmed against `handleJoinRoom` (with
the transcription-lost destructuring restored per spec section 9): a
missing or unknown room id yields the room-not-found error reply no matter
what password was supplied — so the not-found check precedes the password
check — a non-null stored password that differs from the supplied one
yields the error reply carrying the machine code PASSWORD_INCORRECT with
the state unchanged (the caller is not added), and a room with a null
stored password accepts the join for every supplied password value. -/
theorem claim4_join_error_precedence
    (s : ServerState) (cid : String) (info : Client)
    (hc : mapGet s.clients cid = some info) :
    (∀ pw, handleJoinRoom s cid none pw
        = (s, [(cid, OutMsg.errorReply "房间未找到" none)]))
    ∧ (∀ rid pw, mapGet s.rooms rid = none →
        handleJoinRoom s cid (some rid) pw
          = (s, [(cid, OutMsg.errorReply "房间未找到" none)]))
    ∧ (∀ rid room pw, mapGet s.rooms rid = some room →
        room.password ≠ none → room.password ≠ pw →
        handleJoinRoom s cid (some rid) pw
          = (s, [(cid, OutMsg.errorReply "密码错误" (some "PASSWORD_INCORRECT"))]))
    ∧ (∀ rid room pw, mapGet s.rooms rid = some room → room.password = none →
        (handleJoinRoom s cid (some rid) pw).2.head?
            = some (cid, OutMsg.joinedRoom rid)
        ∧ mapGet (handleJoinRoom s cid (some rid) pw).1.rooms rid
            = some { room with viewers := setAdd room.viewers info.persistentId }) := by
  refine ⟨?_, ?_, ?_, ?_⟩
  · intro pw
    simp [handleJoinRoom, hc]
  · intro rid pw h0
    simp [handleJoinRoom, hc, h0]
  · intro rid room pw h0 h1 h2
    simp [handleJoinRoom, hc, h0, h1, h2]
  · intro rid room pw h0 h1
    refine ⟨joinRoom_success_head s cid info rid room pw hc h0 h1, ?_⟩
    simp [handleJoinRoom, hc, h0, h1, mapGet_mapSet_self]

/-- Witness for the C4 theorem: at `demoState`, a join naming no room id
receives the room-not-found reply. -/
theorem claim4_witness :
    mapGet demoState.clients "cw" = some demoW
    ∧ handleJoinRoom demoState "cw" none (some "zzz")
        = (demoState, [("cw", OutMsg.errorReply "房间未找到" none)]) :=
  ⟨by decide,
   (claim4_join_error_precedence demoState "cw" demoW (by decide)).1 (some "zzz")⟩

/-- C7 amended: for a target who is a current member and is not already
muted, mute-viewer followed by unmute-viewer emits, in order, the
viewer-muted-status true pair (target first, then broadcaster) and then
the false pair, and restores the entire server state; re-applying the same
mute is idempotent on the state and re-sends the identical notifications.
The unqualified claim — restoration of mutedViewers from an arbitrary
prior state — fails when the target was already muted (see
`claim7_counterexample`), since the mute is a set-idempotent add and the
unmute an unconditional delete. -/
theorem claim7_mute_unmute_roundtrip
    (s : ServerState) (cid : String) (info : Client) (rid : String) (room : Room)
    (tgt : Option String) (tcid : String) (tc : Client)
    (hc : mapGet s.clients cid = some info)
    (hidx : mapGet s.persistentIdToRoomId info.persistentId = some rid)
    (hroom : mapGet s.rooms rid = some room)
    (hb : room.broadcasterId = info.persistentId)
    (hv : tgt ∈ room.viewers)
    (hnm : tgt ∉ room.mutedViewers)
    (ht1 : mapGet s.persistentIdToClientId tgt = some tcid)
    (ht2 : mapGet s.clients tcid = some tc) :
    (handleMuteViewer s cid tgt).2
        = [(tc.id, OutMsg.viewerMutedStatus tgt true),
           (cid, OutMsg.viewerMutedStatus tgt true)]
    ∧ (handleUnmuteViewer (handleMuteViewer s cid tgt).1 cid tgt).2
        = [(tc.id, OutMsg.viewerMutedStatus tgt false),
           (cid, OutMsg.viewerMutedStatus tgt false)]
    ∧ (handleUnmuteViewer (handleMuteViewer s cid tgt).1 cid tgt).1 = s
    ∧ handleMuteViewer (handleMuteViewer s cid tgt).1 cid tgt
        = handleMuteViewer s cid tgt := by
  have hm := muteViewer_success s cid info rid room tgt tcid tc
    hc hidx hroom hb hv ht1 ht2
  have hu1 := unmuteViewer_success
    ({ s with rooms := mapSet s.rooms rid { room with
        mutedViewers := setAdd room.mutedViewers tgt } }) cid info rid
    ({ room with mutedViewers := setAdd room.mutedViewers tgt }) tgt tcid tc
    hc hidx (mapGet_mapSet_self _ _ _) hb hv ht1 ht2
  have hsd : setDel (setAdd room.mutedViewers tgt) tgt = room.mutedViewers :=
    setDel_setAdd_of_not_mem hnm
  have hr3 : ({ ({ room with mutedViewers := setAdd room.mutedViewers tgt } : Room)
      with mutedViewers := setDel ({ room with
        mutedViewers := setAdd room.mutedViewers tgt } : Room).mutedViewers tgt }
      : Room) = room := by
    show ({ room with mutedViewers := setDel (setAdd room.mutedViewers tgt) tgt }
      : Room) = room
    rw [hsd]
  have hu : handleUnmuteViewer (handleMuteViewer s cid tgt).1 cid tgt
      = (s, [(tc.id, OutMsg.viewerMutedStatus tgt false),
             (cid, OutMsg.viewerMutedStatus tgt false)]) := by
    rw [hm]
    dsimp only
    rw [hu1, hr3]
    dsimp only
    rw [mapSet_mapSet, mapSet_self_eq hroom]
  have hm3 := muteViewer_success
    ({ s with rooms := mapSet s.rooms rid { room with
        mutedViewers := setAdd room.mutedViewers tgt } }) cid info rid
    ({ room with mutedViewers := setAdd room.mutedViewers tgt }) tgt tcid tc
    hc hidx (mapGet_mapSet_self _ _ _) hb hv ht1 ht2
  have hr4 : ({ ({ room with mutedViewers := setAdd room.mutedViewers tgt } : Room)
      with mutedViewers := setAdd ({ room with
        mutedViewers := setAdd room.mutedViewers tgt } : Room).mutedViewers tgt }
      : Room) = { room with mutedViewers := setAdd room.mutedViewers tgt } := by
    show ({ room with mutedViewers := setAdd (setAdd room.mutedViewers tgt) tgt }
      : Room) = { room with mutedViewers := setAdd room.mutedViewers tgt }
    rw [setAdd_idem]
  have hm2 : handleMuteViewer (handleMuteViewer s cid tgt).1 cid tgt
      = handleMuteViewer s cid tgt := by
    conv_lhs => rw [hm]
    rw [hm]
    dsimp only
    rw [hm3, hr4]
    dsimp only
    rw [mapSet_mapSet]
  exact ⟨by rw [hm], by rw [hu], by rw [hu], hm2⟩

/-- Witness for the C7 theorem: broadcaster "cb" mutes then unmutes member
viewer "v" of `demoState`; the state is restored exactly. -/
theorem claim7_witness :
    (mapGet demoState.clients "cb" = some demoB
      ∧ mapGet demoState.persistentIdToRoomId demoB.persistentId = some "r1"
      ∧ some "v" ∈ demoRoom.viewers ∧ some "v" ∉ demoRoom.mutedViewers)
    ∧ (handleUnmuteViewer (handleMuteViewer demoState "cb" (some "v")).1 "cb"
        (some "v")).1 = demoState :=
  ⟨⟨by decide, by decide, by decide, by decide⟩,
   (claim7_mute_unmute_roundtrip demoState "cb" demoB "r1" demoRoom (some "v")
      "cv" demoV (by decide) (by decide) (by decide) (by decide) (by decide)
      (by decide) (by decide) (by decide)).2.2.1⟩

/-- C9: relays are pure on the registries — the state after
`routeP2PMessage` is the very state before it, so every room's viewers,
mutedViewers, anchor-mute flag and the membership index are unchanged —
a resolvable target receives one message of the same kind with the payload
fields preserved and senderId set to the sender's identity, and a missing
or unresolvable target produces no send at all (no reply to the sender). -/
theorem claim9_relay_pure_and_delivery
    (s : ServerState) (sid : Option String) (k : RelayKind) (pl : P2PPayload) :
    (routeP2PMessage s sid k pl).1 = s
    ∧ (pl.targetId = none → (routeP2PMessage s sid k pl).2 = [])
    ∧ (∀ tgt, pl.targetId = some tgt →
        (mapGet s.persistentIdToClientId (some tgt)).bind (mapGet s.clients) = none →
        (routeP2PMessage s sid k pl).2 = [])
    ∧ (∀ tgt tc, pl.targetId = some tgt → tgt ≠ "" →
        (mapGet s.persistentIdToClientId (some tgt)).bind (mapGet s.clients)
            = some tc →
        (routeP2PMessage s sid k pl).2
          = [(tc.id, OutMsg.relayed k pl.targetId pl.body sid)]) := by
  refine ⟨state_routeP2PMessage s sid k pl, ?_, ?_, ?_⟩
  · intro h
    simp [routeP2PMessage, h]
  · intro tgt h hb
    by_cases he : tgt = ""
    · subst he
      simp [routeP2PMessage, h]
    · simp [routeP2PMessage, h, he, hb]
  · intro tgt tc h he hb
    simp [routeP2PMessage, h, he, hb]

/-- Witness for the C9 theorem: an offer from "b" to "v" in `demoState` is
delivered to connection cv with the body preserved and senderId added,
with the state untouched. -/
theorem claim9_witness :
    (routeP2PMessage demoState (some "b") RelayKind.offer
        { targetId := some "v", body := [("sdp", "x")] }).1 = demoState
    ∧ (routeP2PMessage demoState (some "b") RelayKind.offer
        { targetId := some "v", body := [("sdp", "x")] }).2
      = [("cv", OutMsg.relayed RelayKind.offer (some "v") [("sdp", "x")] (some "b"))] :=
  ⟨(claim9_relay_pure_and_delivery demoState (some "b") RelayKind.offer
      { targetId := some "v", body := [("sdp", "x")] }).1,
   (claim9_relay_pure_and_delivery demoState (some "b") RelayKind.offer
      { targetId := some "v", body := [("sdp", "x")] }).2.2.2 "v" demoV rfl
     (by decide) (by decide)⟩

/-- C10: on every successful rejoin the stored room password is replaced
by `password || null` of the rejoin payload — null exactly when the field
is absent or the empty string — and once null, a subsequent join-room for
that room succeeds whatever password the joiner supplies: rejoining
without resupplying the password silently removes the protection. -/
theorem claim10_rejoin_overwrites_password
    (s : ServerState) (cid : String) (info : Client) (pid : String) (rid : String)
    (room : Room) (name pw : Option String)
    (hc : mapGet s.clients cid = some info)
    (hpid : info.persistentId = some pid) (hne : pid ≠ "")
    (hroom : mapGet s.rooms rid = some room)
    (hb : room.broadcasterId = some pid) :
    ((mapGet (handleRejoinRoom s cid (some rid) name pw).1.rooms rid).map
        Room.password = some (orNull pw))
    ∧ (pw = none ∨ pw = some "" → orNull pw = none)
    ∧ (∀ p2, p2 ≠ "" → pw = some p2 → orNull pw = some p2)
    ∧ (∀ (cid2 : String) (info2 : Client) (anyPw : Option String),
        orNull pw = none →
        mapGet (handleRejoinRoom s cid (some rid) name pw).1.clients cid2
          = some info2 →
        (handleJoinRoom (handleRejoinRoom s cid (some rid) name pw).1 cid2
            (some rid) anyPw).2.head?
          = some (cid2, OutMsg.joinedRoom rid)) := by
  have hkey : ∃ room3, mapGet (handleRejoinRoom s cid (some rid) name pw).1.rooms rid
      = some room3 ∧ room3.password = orNull pw := by
    by_cases hn : room.name ≠ name
    · rcases hrt : room.reconnectTimeout with _ | tid
      · refine ⟨{ room with
            name := name, password := orNull pw,
            reconnectTimeout := none, status := RoomStatus.active }, ?_, rfl⟩
        simp [handleRejoinRoom, hc, hpid, hne, hroom, hb, hn, hrt,
          mapGet_mapSet_self]
      · refine ⟨{ room with
            name := name, password := orNull pw,
            reconnectTimeout := none, status := RoomStatus.active }, ?_, rfl⟩
        simp [handleRejoinRoom, hc, hpid, hne, hroom, hb, hn, hrt,
          mapGet_mapSet_self]
    · rcases hrt : room.reconnectTimeout with _ | tid
      · refine ⟨{ room with
            password := orNull pw,
            reconnectTimeout := none, status := RoomStatus.active }, ?_, rfl⟩
        simp [handleRejoinRoom, hc, hpid, hne, hroom, hb, hn, hrt,
          mapGet_mapSet_self]
      · refine ⟨{ room with
            password := orNull pw,
            reconnectTimeout := none, status := RoomStatus.active }, ?_, rfl⟩
        simp [handleRejoinRoom, hc, hpid, hne, hroom, hb, hn, hrt,
          mapGet_mapSet_self]
  obtain ⟨room3, hg, hp⟩ := hkey
  refine ⟨?_, ?_, ?_, ?_⟩
  · rw [hg]
    simp [hp]
  · intro h0
    rcases h0 with rfl | rfl
    · rfl
    · decide
  · intro p2 hp2 h0
    subst h0
    simp [orNull, truthy, hp2]
  · intro cid2 info2 anyPw h0 hc2
    exact joinRoom_success_head _ _ _ _ _ _ hc2 hg (by rw [hp, h0])

/-- Witness for the C10 theorem: broadcaster "b" rejoins room r1 of
`demoState` without resupplying the password; the stored password becomes
null. -/
theorem claim10_witness :
    (mapGet demoState.clients "cb" = some demoB
      ∧ demoB.persistentId = some "b"
      ∧ mapGet demoState.rooms "r1" = some demoRoom
      ∧ demoRoom.broadcasterId = some "b")
    ∧ ((mapGet (handleRejoinRoom demoState "cb" (some "r1") (some "X")
          none).1.rooms "r1").map Room.password = some (orNull none)) :=
  ⟨⟨by decide, by decide, by decide, by decide⟩,
   (claim10_rejoin_overwrites_password demoState "cb" demoB "b" "r1" demoRoom
      (some "X") none (by decide) (by decide) (by decide) (by decide)
      (by decide)).1⟩

end LiveTest
